import Mathlib

/-!
# Verification of the snappie-api-express authentication & session-token subsystem

Shallow embedding of the auth core of the repository:
* `middleware/auth.js` (`authenticate`, `verifyRegistrationToken`),
* `controllers/authController.js` (`register`, `login`, `logout`),
* `models/PersonalAccessToken.js` (`isValid`, `findByToken` / `findOne`,
  `hasActiveSession`, `createToken`).

Stores are modelled as lists of rows; Sequelize `findOne` is `List.find?`
(first match in insertion order), `create` appends, `destroy` filters,
row `update` maps over the list replacing the row with the matching id.
Timestamps are naturals (milliseconds since epoch); each JS `new Date()`
inside one request handler is modelled as the single instant `now` at
which the handler runs.  `crypto.randomBytes(32)` is modelled by passing
the 32 generated bytes in as an input; autoincremented primary keys are
passed in as a fresh-id input.  `jsonwebtoken`'s `verifyToken` (from
`utils/jwt.js`, an external library wrapper) is a parameter
`verify : String → Option DecodedJwt` returning `none` when verification
throws.
-/

namespace Snappie

/-- Model of JavaScript `String.prototype.startsWith`. -/
def jsStartsWith (s p : String) : Bool := p.data.isPrefixOf s.data

/-- Model of JavaScript `String.prototype.substring(n)`. -/
def jsSubstring (s : String) (n : Nat) : String := String.mk (s.data.drop n)

/-- Model of JavaScript `String.prototype.toLowerCase` (`email.toLowerCase()`). -/
def jsToLower (s : String) : String := String.mk (s.data.map Char.toLower)

/-- JS truthiness of an optional string field: absent and `""` are falsy. -/
def jsTruthy : Option String → Bool
  | none => false
  | some s => s ≠ ""

/-- Model of `a || b` for an optional string with a default (JS falsy fallback). -/
def jsOr (o : Option String) (d : String) : String :=
  match o with
  | some s => if s ≠ "" then s else d
  | none => d

/-- UTF-8 encoding of one Unicode code point. -/
def utf8EncodeChar (c : Char) : List Nat :=
  let n := c.toNat
  if n < 0x80 then [n]
  else if n < 0x800 then
    [0xC0 ||| (n >>> 6), 0x80 ||| (n &&& 0x3F)]
  else if n < 0x10000 then
    [0xE0 ||| (n >>> 12), 0x80 ||| ((n >>> 6) &&& 0x3F), 0x80 ||| (n &&& 0x3F)]
  else
    [0xF0 ||| (n >>> 18), 0x80 ||| ((n >>> 12) &&& 0x3F),
      0x80 ||| ((n >>> 6) &&& 0x3F), 0x80 ||| (n &&& 0x3F)]

/-- UTF-8 bytes of a string, as naturals: models `Buffer.from(string)`. -/
def utf8Bytes (s : String) : List Nat := s.data.flatMap utf8EncodeChar

/-- The constant `tokenable_type` discriminator used by the code. -/
def userType : String := "App\\Models\\User"

/-- Decoded JWT payload, as consumed by the middleware (`decoded.type`, `decoded.id`). -/
structure DecodedJwt where
  type : String
  id : Nat
  deriving Repr, DecidableEq

/-- One row of the `users` table.
`models/User.js` is not part of the sources at hand; its fields follow the
spec's data model (§3): id, email, username, display name, avatar URL,
active/deactivated flag, last-login timestamp, nested preferences blob. -/
structure User where
  id : Nat
  name : String
  username : String
  email : String
  imageUrl : String
  activeFlag : Bool
  lastLoginAt : Option Nat
  deriving Repr, DecidableEq

/-- Modelled from the spec: `models/User.js` is missing from the sources;
per §3/§4.2 `isActive` reads the account's active/deactivated flag. -/
def User.isActive (u : User) : Bool := u.activeFlag

/-- Modelled from the spec: `models/User.js` is missing from the sources;
per §4.2 `updateLastLogin` stamps the last-login timestamp on the row. -/
def User.updateLastLogin (u : User) (now : Nat) : User :=
  { u with lastLoginAt := some now }

/-- Public profile fields, per spec §6: the resolved identity's public
profile, excluding password/secret material. -/
structure Profile where
  id : Nat
  name : String
  username : String
  email : String
  imageUrl : String
  deriving Repr, DecidableEq

/-- Modelled from the spec: `models/User.js` is missing from the sources;
per §6 `getProfile` returns the public profile fields. -/
def User.getProfile (u : User) : Profile :=
  ⟨u.id, u.name, u.username, u.email, u.imageUrl⟩

/-- Sequelize `User.findByPk(id)`. -/
def User.findByPk (users : List User) (id : Nat) : Option User :=
  users.find? (fun u => u.id == id)

/-- Sequelize `User.findOne({where: {email}})`. -/
def findUserByEmail (users : List User) (email : String) : Option User :=
  users.find? (fun u => u.email == email)

/-- Sequelize `user.save()`: persist the (mutated) row back into the table. -/
def saveUser (users : List User) (u : User) : List User :=
  users.map (fun v => if v.id == u.id then u else v)

/-- One row of the `personal_access_tokens` table
(`models/PersonalAccessToken.js`, `init` block). -/
structure TokenRecord where
  id : Nat
  tokenable_type : String
  tokenable_id : Nat
  name : String
  token : String
  abilities : String
  last_used_at : Option Nat
  expires_at : Option Nat
  created_at : Nat
  deriving Repr, DecidableEq

namespace PersonalAccessToken

/-- `isValid()`: `!this.expires_at || new Date() < this.expires_at`. -/
def isValid (now : Nat) (r : TokenRecord) : Bool :=
  match r.expires_at with
  | none => true
  | some e => decide (now < e)

/-- The middleware's token lookup:
`findOne({where: {token, tokenable_type: 'App\\Models\\User'}})`. -/
def findTokenRecord (store : List TokenRecord) (tok : String) : Option TokenRecord :=
  store.find? (fun r => r.token == tok && r.tokenable_type == userType)

/-- `hasActiveSession(userId)`: `findOne` with
`tokenable_id = userId`, `tokenable_type = 'App\\Models\\User'` and
`expires_at > now` (`Op.gt`; a SQL `NULL expires_at` never satisfies it). -/
def hasActiveSession (store : List TokenRecord) (userId : Nat) (now : Nat) :
    Option TokenRecord :=
  store.find? (fun r =>
    r.tokenable_id == userId && r.tokenable_type == userType &&
      (match r.expires_at with
       | some e => decide (e > now)
       | none => false))

/-- One lowercase hex digit, as produced by `Buffer.toString('hex')`. -/
def hexDigit (n : Nat) : Char :=
  Char.ofNat (if n < 10 then 48 + n else 87 + n)

/-- Lowercase hex encoding of a byte list:
`crypto.randomBytes(32).toString('hex')`. -/
def hexEncode (bs : List Nat) : String :=
  String.mk (bs.flatMap (fun b => [hexDigit (b / 16), hexDigit (b % 16)]))

/-- The fixed session lifetime: 1 day (24 hours) in milliseconds.
The source computes `expiresAt.setDate(expiresAt.getDate() + 1)`, i.e. the
same wall-clock time on the next calendar day, which is 24 hours except
across a DST transition; the model uses the intended fixed 24-hour span. -/
def sessionLifetime : Nat := 86400000

/-- `createToken(user, name, abilities)`: generate a 64-char hex token from
32 random bytes (passed in as `randBytes`), set expiry to now + 1 day,
stamp `last_used_at` with now, and `create` (append) the row.  Returns the
created row and the updated table. -/
def createToken (store : List TokenRecord) (u : User) (name : String)
    (abilities : List String) (now : Nat) (randBytes : List Nat)
    (freshId : Nat) : TokenRecord × List TokenRecord :=
  let tok := hexEncode randBytes
  let tr : TokenRecord :=
    { id := freshId
      tokenable_type := userType
      tokenable_id := u.id
      name := name
      token := tok
      abilities := String.intercalate "," abilities
      last_used_at := some now
      expires_at := some (now + sessionLifetime)
      created_at := now }
  (tr, store ++ [tr])

/-- `tokenRecord.update({last_used_at: new Date()})`: replace the row with
the matching primary key. -/
def updateLastUsed (store : List TokenRecord) (trId : Nat) (now : Nat) :
    List TokenRecord :=
  store.map (fun r => if r.id == trId then { r with last_used_at := some now } else r)

end PersonalAccessToken

open PersonalAccessToken

/-! ## `middleware/auth.js` — `authenticate` -/

/-- Outcome of the `authenticate` middleware.  `next` carries what the
middleware attaches to the request context (`req.user`, `req.token`,
`req.tokenRecord`) plus the token table after its side effects; `reject`
carries the HTTP status, the response message, and the (possibly updated)
token table. -/
inductive AuthResult where
  | next (user : User) (token : String) (tokenRecord : TokenRecord)
      (store : List TokenRecord)
  | reject (status : Nat) (message : String) (store : List TokenRecord)
  deriving Repr, DecidableEq

/-- Tail of `authenticate` after the JWT compatibility block: check the
user's active flag (inactive → 401 in this middleware), update
`last_used_at` once more, and attach user / token / token record. -/
def authFinish (user : User) (token : String) (tr : TokenRecord) (now : Nat)
    (store1 : List TokenRecord) : AuthResult :=
  if !user.isActive then
    .reject 401 "Akun telah dinonaktifkan. Silakan hubungi admin." store1
  else
    .next user token { tr with last_used_at := some now }
      (updateLastUsed store1 tr.id now)

/-- The `authenticate` middleware (`middleware/auth.js`): extract the
bearer token, look it up in `personal_access_tokens`, resolve the owning
user, reject when expired (`expires_at && new Date() > expires_at`),
update `last_used_at`, run the optional JWT cross-check (a JWT parse
failure merely logs a warning and proceeds), reject inactive accounts,
update `last_used_at` again, and attach identity to the request. -/
def authenticate (verify : String → Option DecodedJwt) (users : List User)
    (store : List TokenRecord) (now : Nat) (authHeader : Option String) :
    AuthResult :=
  match authHeader with
  | none => .reject 401 "Token tidak ditemukan. Akses ditolak." store
  | some h =>
    if !jsStartsWith h "Bearer " then
      .reject 401 "Format token tidak valid. Gunakan Bearer token." store
    else
      let token := jsSubstring h 7
      if token = "" then
        .reject 401 "Token tidak ditemukan. Akses ditolak." store
      else
        match findTokenRecord store token with
        | none => .reject 401 "Token tidak ditemukan di database. Akses ditolak." store
        | some tr =>
          match User.findByPk users tr.tokenable_id with
          | none => .reject 401 "User tidak ditemukan. Akses ditolak." store
          | some user =>
            if (match tr.expires_at with
                | some e => decide (now > e)
                | none => false) then
              .reject 401 "Token sudah expired. Akses ditolak." store
            else
              let store1 := updateLastUsed store tr.id now
              match verify token with
              | some decoded =>
                if decoded.type ≠ "access" then
                  .reject 401 "Token type tidak valid." store1
                else if decoded.id ≠ user.id then
                  .reject 401 "Token user mismatch. Akses ditolak." store1
                else
                  authFinish user token tr now store1
              | none => authFinish user token tr now store1

/-! ## `middleware/auth.js` — `verifyRegistrationToken` -/

/-- Outcome of the registration gate. -/
inductive RegGateResult where
  | proceed
  | reject (status : Nat) (message : String)
  deriving Repr, DecidableEq

/-- The registration gate (`middleware/auth.js`,
`verifyRegistrationToken`): require a `Bearer` credential, fail closed
(500) when `REGISTRATION_API_KEY` is unset or empty (JS falsy), reject
with 403 on byte-length mismatch, then compare the UTF-8 bytes with
`crypto.timingSafeEqual` (modelled by byte-list equality; the
constant-time execution of that primitive is a property of the crypto
library, outside this embedding). -/
def verifyRegistrationToken (registrationApiKey : Option String)
    (authHeader : Option String) : RegGateResult :=
  match authHeader with
  | none => .reject 401 "API key registrasi tidak ditemukan. Akses ditolak."
  | some h =>
    if !jsStartsWith h "Bearer " then
      .reject 401 "Format API key tidak valid. Gunakan Bearer token."
    else
      let apiKey := jsSubstring h 7
      if apiKey = "" then
        .reject 401 "API key registrasi tidak ditemukan. Akses ditolak."
      else
        match registrationApiKey with
        | none => .reject 500 "Konfigurasi registrasi tidak valid. Hubungi administrator."
        | some secret =>
          if secret = "" then
            .reject 500 "Konfigurasi registrasi tidak valid. Hubungi administrator."
          else
            let expectedKey := utf8Bytes secret
            let providedKey := utf8Bytes apiKey
            if expectedKey.length ≠ providedKey.length then
              .reject 403 "API key registrasi tidak valid. Akses ditolak."
            else if expectedKey ≠ providedKey then
              .reject 403 "API key registrasi tidak valid. Akses ditolak."
            else
              .proceed

/-! ## `controllers/authController.js` — `register`, `login`, `logout` -/

/-- Outcome of the `register` controller. -/
inductive RegisterResult where
  | validationFailed
  | conflict (message : String)
  | created (profile : Profile)
  deriving Repr, DecidableEq

/-- HTTP status of each `register` outcome. -/
def RegisterResult.status : RegisterResult → Nat
  | .validationFailed => 400
  | .conflict _ => 409
  | .created _ => 201

/-- The `register` controller: reject on validation errors, reject 409
when a user with the lower-cased email or the username already exists,
otherwise create the user row (lower-cased email, placeholder avatar
default, default nested preferences blob per the source — the blob is not
modelled field-by-field as no claim inspects it) and respond 201 with the
created profile.  No token row is touched; the token table is returned
unchanged to make that frame condition explicit. -/
def register (users : List User) (tokens : List TokenRecord)
    (hasValidationErrors : Bool) (name username email : String)
    (imageUrl : Option String) (freshId : Nat) :
    RegisterResult × List User × List TokenRecord :=
  if hasValidationErrors then (.validationFailed, users, tokens)
  else
    match users.find? (fun u => u.email == jsToLower email || u.username == username) with
    | some existingUser =>
      (.conflict (if existingUser.email = jsToLower email
          then "Email sudah terdaftar" else "Username sudah digunakan"),
        users, tokens)
    | none =>
      let newUser : User :=
        { id := freshId
          name := name
          username := username
          email := jsToLower email
          imageUrl := jsOr imageUrl "https://via.placeholder.com/150"
          activeFlag := true
          lastLoginAt := none }
      (.created newUser.getProfile, users ++ [newUser], tokens)

/-- Outcome of the `login` controller.  `conflict` carries the literal
`hasActiveSession` flag and the `sessionCreatedAt` value placed in the
response body. -/
inductive LoginResult where
  | validationFailed
  | notFound
  | forbidden
  | conflict (hasActiveSession : Bool) (sessionCreatedAt : Nat)
  | success (token : String)
  deriving Repr, DecidableEq

/-- HTTP status of each `login` outcome. -/
def LoginResult.status : LoginResult → Nat
  | .validationFailed => 400
  | .notFound => 404
  | .forbidden => 403
  | .conflict _ _ => 409
  | .success _ => 200

/-- The name/avatar refresh performed by `login` before anything else:
`if (name && name !== user.name) user.name = name` and likewise for
`imageUrl` (JS truthiness: absent or empty strings are ignored). -/
def applyProfileSync (u : User) (nameOpt imageUrlOpt : Option String) : User :=
  let u1 :=
    match nameOpt with
    | some n => if n ≠ "" ∧ n ≠ u.name then { u with name := n } else u
    | none => u
  match imageUrlOpt with
  | some i => if i ≠ "" ∧ i ≠ u1.imageUrl then { u1 with imageUrl := i } else u1
  | none => u1

/-- The `login` controller: find the user by lower-cased email (404 when
absent), persist any provided name/avatar refresh, reject deactivated
accounts (403), stamp last-login, then ask `hasActiveSession`; an
existing live session yields 409 with `hasActiveSession: true` and the
session's `created_at`, otherwise `createToken` issues the new token and
the controller responds 200 with its token string.  (The JWT
`generateAccessToken` also placed in the success body is external and
carries no store effect; it is not modelled.) -/
def login (users : List User) (tokens : List TokenRecord) (now : Nat)
    (hasValidationErrors : Bool) (email : String)
    (nameOpt imageUrlOpt : Option String) (randBytes : List Nat)
    (freshTokenId : Nat) : LoginResult × List User × List TokenRecord :=
  if hasValidationErrors then (.validationFailed, users, tokens)
  else
    match findUserByEmail users (jsToLower email) with
    | none => (.notFound, users, tokens)
    | some user =>
      let user1 := applyProfileSync user nameOpt imageUrlOpt
      let users1 := saveUser users user1
      if !user1.isActive then (.forbidden, users1, tokens)
      else
        let user2 := user1.updateLastLogin now
        let users2 := saveUser users1 user2
        match hasActiveSession tokens user.id now with
        | some existingSession =>
          (.conflict true existingSession.created_at, users2, tokens)
        | none =>
          let created := createToken tokens user2 "API Login" ["*"] now randBytes freshTokenId
          (.success created.1.token, users2, created.2)

/-- The `logout` controller: given the authenticated request's
`req.token`, delete every row whose `token` column equals it
(`destroy({where: {token}})`; the column is unique so at most one row in
reachable states), and always respond success. -/
def logout (token : String) (tokens : List TokenRecord) :
    Bool × List TokenRecord :=
  if token ≠ "" then (true, tokens.filter (fun r => r.token ≠ token))
  else (true, tokens)

/-! ## Shared helper lemmas -/

/-- The middleware's expiry guard is off exactly when the expiry, if set,
has not passed yet. -/
theorem expiryGuard_eq_false_iff (o : Option Nat) (now : Nat) :
    (match o with
     | some e => decide (now > e)
     | none => false) = false ↔ ∀ e, o = some e → now ≤ e := by
  cases o <;> simp [Nat.not_lt]

/-- Full characterization of when `authenticate` passes control
downstream, and of everything it attaches and mutates when it does. -/
theorem authenticate_next_iff (verify : String → Option DecodedJwt)
    (users : List User) (store : List TokenRecord) (now : Nat)
    (h : Option String) (user : User) (tok : String) (tr1 : TokenRecord)
    (store' : List TokenRecord) :
    authenticate verify users store now h = .next user tok tr1 store' ↔
      ∃ s tr, h = some s ∧ jsStartsWith s "Bearer " = true ∧
        tok = jsSubstring s 7 ∧ tok ≠ "" ∧
        findTokenRecord store tok = some tr ∧
        User.findByPk users tr.tokenable_id = some user ∧
        (∀ e, tr.expires_at = some e → now ≤ e) ∧
        (∀ d, verify tok = some d → d.type = "access" ∧ d.id = user.id) ∧
        user.isActive = true ∧
        tr1 = { tr with last_used_at := some now } ∧
        store' = updateLastUsed (updateLastUsed store tr.id now) tr.id now := by
  constructor
  · intro heq
    cases h with
    | none => simp [authenticate] at heq
    | some s =>
      simp only [authenticate] at heq
      split at heq
      · exact AuthResult.noConfusion heq
      · rename_i hbw
        split at heq
        · exact AuthResult.noConfusion heq
        · rename_i htokne
          split at heq
          · exact AuthResult.noConfusion heq
          · rename_i tr hfind
            split at heq
            · exact AuthResult.noConfusion heq
            · rename_i u huser
              split at heq
              · exact AuthResult.noConfusion heq
              · rename_i hexp
                have hbw' : jsStartsWith s "Bearer " = true := by
                  simpa using hbw
                have hnx : ∀ e, tr.expires_at = some e → now ≤ e :=
                  (expiryGuard_eq_false_iff _ _).mp (by simpa using hexp)
                split at heq
                · rename_i d hv
                  split at heq
                  · exact AuthResult.noConfusion heq
                  · rename_i hdt
                    split at heq
                    · exact AuthResult.noConfusion heq
                    · rename_i hdi
                      simp only [authFinish] at heq
                      split at heq
                      · exact AuthResult.noConfusion heq
                      · rename_i hact
                        injection heq with h1 h2 h3 h4
                        subst h1 h2 h3 h4
                        refine ⟨s, tr, rfl, hbw', rfl, htokne, hfind, huser,
                          hnx, ?_, by simpa using hact, rfl, rfl⟩
                        intro d' hd'
                        rw [hv] at hd'
                        cases hd'
                        exact ⟨not_not.mp hdt, not_not.mp hdi⟩
                · rename_i hv
                  simp only [authFinish] at heq
                  split at heq
                  · exact AuthResult.noConfusion heq
                  · rename_i hact
                    injection heq with h1 h2 h3 h4
                    subst h1 h2 h3 h4
                    refine ⟨s, tr, rfl, hbw', rfl, htokne, hfind, huser, hnx,
                      ?_, by simpa using hact, rfl, rfl⟩
                    intro d' hd'
                    rw [hv] at hd'
                    cases hd'
  · rintro ⟨s, tr, rfl, hbw, rfl, htokne, hfind, huser, hnx, hjwt, hact, rfl, rfl⟩
    have hexp : (match tr.expires_at with
        | some e => decide (now > e)
        | none => false) = false :=
      (expiryGuard_eq_false_iff _ _).mpr hnx
    cases hv : verify (jsSubstring s 7) with
    | some d =>
      obtain ⟨hdt, hdi⟩ := hjwt d hv
      simp [authenticate, authFinish, hbw, htokne, hfind, huser, hexp, hv,
        hdt, hdi, hact]
    | none =>
      simp [authenticate, authFinish, hbw, htokne, hfind, huser, hexp, hv, hact]

/-- Every outcome of `authenticate` is either a downstream pass or a 401
rejection: the middleware never emits any other status (in particular a
deactivated account is also answered with 401 here, not 403). -/
theorem authenticate_status (verify : String → Option DecodedJwt)
    (users : List User) (store : List TokenRecord) (now : Nat)
    (h : Option String) :
    (∃ u tok tr st, authenticate verify users store now h = .next u tok tr st) ∨
    (∃ m st, authenticate verify users store now h = .reject 401 m st) := by
  cases h with
  | none => exact Or.inr ⟨_, _, rfl⟩
  | some s =>
    simp only [authenticate, authFinish]
    repeat' split
    all_goals first
    | exact Or.inr ⟨_, _, rfl⟩
    | exact Or.inl ⟨_, _, _, _, rfl⟩

/-- `jsStartsWith` holds of an appended prefix. -/
theorem jsStartsWith_append (p s : String) : jsStartsWith (p ++ s) p = true := by
  simp [jsStartsWith, String.data_append, List.isPrefixOf_iff_prefix]

/-- `jsSubstring` after the 7-character `"Bearer "` prefix recovers the token. -/
theorem jsSubstring_bearer (s : String) :
    jsSubstring ("Bearer " ++ s) 7 = s := by
  show String.mk (("Bearer " ++ s).data.drop 7) = s
  rw [String.data_append]
  show String.mk (("Bearer ".data ++ s.data).drop "Bearer ".data.length) = s
  rw [List.drop_left]

/-- Length of the hex encoding: two characters per byte. -/
theorem hexEncode_length (bs : List Nat) :
    (hexEncode bs).length = 2 * bs.length := by
  show (bs.flatMap (fun b => [hexDigit (b / 16), hexDigit (b % 16)])).length =
    2 * bs.length
  induction bs with
  | nil => rfl
  | cons b tl ih => simp [List.flatMap_cons, ih]; omega

/-- The profile refresh performed at login never touches the active flag. -/
theorem applyProfileSync_activeFlag (u : User) (n i : Option String) :
    (applyProfileSync u n i).activeFlag = u.activeFlag := by
  unfold applyProfileSync
  cases n <;> cases i <;> dsimp only [] <;> repeat' split
  all_goals rfl

/-- The profile refresh performed at login never touches the user id. -/
theorem applyProfileSync_id (u : User) (n i : Option String) :
    (applyProfileSync u n i).id = u.id := by
  unfold applyProfileSync
  cases n <;> cases i <;> dsimp only [] <;> repeat' split
  all_goals rfl

/-- A saved row is present in the table after `saveUser` whenever the row
it replaces was present. -/
theorem mem_saveUser (users : List User) (u u' : User) (hu : u ∈ users)
    (hid : u.id = u'.id) : u' ∈ saveUser users u' := by
  unfold saveUser
  exact List.mem_map.mpr ⟨u, hu, by simp [hid]⟩

/-- The login liveness guard is on exactly when the expiry is set and
strictly in the future. -/
theorem liveGuard_eq_true_iff (o : Option Nat) (now : Nat) :
    (match o with
     | some e => decide (e > now)
     | none => false) = true ↔ ∃ e, o = some e ∧ now < e := by
  cases o <;> simp

/-- Looking a freshly generated token string up in the table right after
it was appended finds exactly the appended row. -/
theorem findTokenRecord_append_fresh (store : List TokenRecord)
    (tr : TokenRecord) (tok : String)
    (hfresh : ∀ r ∈ store, r.token ≠ tok) (htr : tr.token = tok)
    (hty : tr.tokenable_type = userType) :
    findTokenRecord (store ++ [tr]) tok = some tr := by
  unfold findTokenRecord
  induction store with
  | nil => simp [List.find?, htr, hty]
  | cons r rs ih =>
    have hr : (r.token == tok) = false := by
      simp [hfresh r (List.mem_cons_self r rs)]
    simp only [List.cons_append, List.find?_cons, hr, Bool.false_and]
    exact ih (fun r' hr' => hfresh r' (List.mem_cons_of_mem r hr'))

/-- Reduction of `login` for an existing active user, up to the
active-session check. -/
theorem login_reaches_session_check (users : List User)
    (tokens : List TokenRecord) (now : Nat) (email : String)
    (n i : Option String) (bytes : List Nat) (fid : Nat) (u : User)
    (hu : findUserByEmail users (jsToLower email) = some u)
    (hact : u.isActive = true) :
    login users tokens now false email n i bytes fid =
      (match hasActiveSession tokens u.id now with
       | some ex =>
         (.conflict true ex.created_at,
           saveUser (saveUser users (applyProfileSync u n i))
             ((applyProfileSync u n i).updateLastLogin now), tokens)
       | none =>
         (.success (createToken tokens
             ((applyProfileSync u n i).updateLastLogin now) "API Login" ["*"]
             now bytes fid).1.token,
           saveUser (saveUser users (applyProfileSync u n i))
             ((applyProfileSync u n i).updateLastLogin now),
           (createToken tokens ((applyProfileSync u n i).updateLastLogin now)
             "API Login" ["*"] now bytes fid).2)) := by
  have hact1 : (applyProfileSync u n i).isActive = true := by
    show (applyProfileSync u n i).activeFlag = true
    rw [applyProfileSync_activeFlag]
    exact hact
  simp [login, hu, hact1]

/-- The name refresh applies whenever a non-empty name is provided. -/
theorem applyProfileSync_name (u : User) (n : String) (i : Option String)
    (hn : n ≠ "") : (applyProfileSync u (some n) i).name = n := by
  unfold applyProfileSync
  cases i <;> dsimp only [] <;> repeat' split
  all_goals simp_all

/-- The avatar refresh applies whenever a non-empty avatar URL is provided. -/
theorem applyProfileSync_imageUrl (u : User) (n : Option String) (i : String)
    (hi : i ≠ "") : (applyProfileSync u n (some i)).imageUrl = i := by
  unfold applyProfileSync
  cases n <;> dsimp only [] <;> repeat' split
  all_goals simp_all

/-! ## Concrete fixtures used by witnesses and counterexamples -/

/-- Store-issued tokens are 64-character hex strings (no `.` separators),
so `utils/jwt.js`'s `verifyToken` always throws on them; `noJwt` is its
behavior on such tokens. -/
def noJwt : String → Option DecodedJwt := fun _ => none

/-- An active user fixture. -/
def aliceActive : User :=
  { id := 1, name := "Alice", username := "alice",
    email := "alice@example.com", imageUrl := "https://img.example/a.png",
    activeFlag := true, lastLoginAt := none }

/-- The same user, deactivated. -/
def aliceInactive : User := { aliceActive with activeFlag := false }

/-- A token row for user 1 expiring at time 100. -/
def tok100 : TokenRecord :=
  { id := 1, tokenable_type := userType, tokenable_id := 1,
    name := "API Login", token := "deadbeef", abilities := "*",
    last_used_at := none, expires_at := some 100, created_at := 0 }

/-- A token row for user 1 with no expiry set. -/
def tokNoExpiry : TokenRecord :=
  { id := 2, tokenable_type := userType, tokenable_id := 1,
    name := "API Login", token := "cafe", abilities := "*",
    last_used_at := none, expires_at := none, created_at := 5 }

/-- 32 bytes of (stand-in) entropy. -/
def bytes0 : List Nat := List.replicate 32 0

/-! ## Claim theorems -/

/-- **C1** (amended).  The middleware passes control downstream, attaching
the resolved user, the raw token string, and the (last-used-stamped) token
record, exactly when a bearer token is presented, the token string exists
in the token store, its expiry (if set) has not yet passed (current time ≤
expiry — the code accepts the instant of expiry itself), its owning user
exists and is active, and any successful JWT parse of the token string
carries type `access` and the owner's id; every rejection is a 401
(Unauthenticated) response with no identity attached. -/
theorem authenticate_pass_characterization :
    (∀ (verify : String → Option DecodedJwt) (users : List User)
        (store : List TokenRecord) (now : Nat) (h : Option String)
        (user : User) (tok : String) (tr1 : TokenRecord)
        (store' : List TokenRecord),
      authenticate verify users store now h = .next user tok tr1 store' ↔
        ∃ s tr, h = some s ∧ jsStartsWith s "Bearer " = true ∧
          tok = jsSubstring s 7 ∧ tok ≠ "" ∧
          findTokenRecord store tok = some tr ∧
          User.findByPk users tr.tokenable_id = some user ∧
          (∀ e, tr.expires_at = some e → now ≤ e) ∧
          (∀ d, verify tok = some d → d.type = "access" ∧ d.id = user.id) ∧
          user.isActive = true ∧
          tr1 = { tr with last_used_at := some now } ∧
          store' = updateLastUsed (updateLastUsed store tr.id now) tr.id now) ∧
    (∀ (verify : String → Option DecodedJwt) (users : List User)
        (store : List TokenRecord) (now : Nat) (h : Option String),
      (∃ u tok tr st, authenticate verify users store now h = .next u tok tr st) ∨
      (∃ m st, authenticate verify users store now h = .reject 401 m st)) :=
  ⟨authenticate_next_iff, authenticate_status⟩

/-- **C1** counterexample to the claim as stated: at the exact instant of
expiry (`now = expires_at = 100`) the expiry is not in the future, yet the
middleware still passes the request downstream (the code only rejects when
`now > expires_at`). -/
theorem authenticate_pass_at_exact_expiry_cex :
    authenticate noJwt [aliceActive] [tok100] 100 (some "Bearer deadbeef") =
      .next aliceActive "deadbeef" { tok100 with last_used_at := some 100 }
        (updateLastUsed (updateLastUsed [tok100] tok100.id 100) tok100.id 100) ∧
    tok100.expires_at = some 100 ∧ ¬ (100 < 100) := by
  refine ⟨by decide, by decide, by decide⟩

/-- **C1** witness: the characterization applied at a concrete request. -/
theorem authenticate_pass_characterization_witness :
    authenticate noJwt [aliceActive] [tok100] 50 (some "Bearer deadbeef") =
      .next aliceActive "deadbeef" { tok100 with last_used_at := some 50 }
        (updateLastUsed (updateLastUsed [tok100] tok100.id 50) tok100.id 50) := by
  apply (authenticate_pass_characterization.1 noJwt [aliceActive] [tok100] 50
    (some "Bearer deadbeef") aliceActive "deadbeef" _ _).mpr
  refine ⟨"Bearer deadbeef", tok100, rfl, by decide, by decide, by decide,
    by decide, by decide, ?_, ?_, by decide, rfl, rfl⟩
  · intro e he
    simp [tok100] at he
    omega
  · intro d hd
    simp [noJwt] at hd

/-- **C6** (amended).  With a known, unexpired token owned by an existing
but deactivated user, the `authenticate` middleware rejects with status
401 (not 403) and the "account deactivated" message. -/
theorem authenticate_deactivated_rejects_401
    (verify : String → Option DecodedJwt) (users : List User)
    (store : List TokenRecord) (now : Nat) (s : String) (tr : TokenRecord)
    (user : User)
    (hbw : jsStartsWith s "Bearer " = true)
    (htokne : jsSubstring s 7 ≠ "")
    (hfind : findTokenRecord store (jsSubstring s 7) = some tr)
    (huser : User.findByPk users tr.tokenable_id = some user)
    (hnx : ∀ e, tr.expires_at = some e → now ≤ e)
    (hv : verify (jsSubstring s 7) = none)
    (hinact : user.isActive = false) :
    authenticate verify users store now (some s) =
      .reject 401 "Akun telah dinonaktifkan. Silakan hubungi admin."
        (updateLastUsed store tr.id now) := by
  have hexp := (expiryGuard_eq_false_iff tr.expires_at now).mpr hnx
  simp [authenticate, authFinish, hbw, htokne, hfind, huser, hexp, hv, hinact]

/-- **C6** counterexample to the claim as stated: the deactivated-account
rejection carries status 401, not the claimed 403 Forbidden. -/
theorem authenticate_deactivated_status_cex :
    authenticate noJwt [aliceInactive] [tok100] 50 (some "Bearer deadbeef") =
      .reject 401 "Akun telah dinonaktifkan. Silakan hubungi admin."
        (updateLastUsed [tok100] tok100.id 50) ∧
    (401 : Nat) ≠ 403 := by
  refine ⟨by decide, by decide⟩

/-- **C6** witness: the amended theorem applied at a concrete request. -/
theorem authenticate_deactivated_rejects_401_witness :
    authenticate noJwt [aliceInactive] [tok100] 60 (some "Bearer deadbeef") =
      .reject 401 "Akun telah dinonaktifkan. Silakan hubungi admin."
        (updateLastUsed [tok100] tok100.id 60) := by
  apply authenticate_deactivated_rejects_401 noJwt [aliceInactive] [tok100] 60
    "Bearer deadbeef" tok100 aliceInactive (by decide) (by decide) (by decide)
    (by decide) ?_ (by decide) (by decide)
  intro e he
  simp [tok100] at he
  omega

/-- **C3** (amended).  A token issued at time `T` (with the fixed 24-hour
lifetime `sessionLifetime`) validates successfully at every time `t` with
`T ≤ t ≤ T + sessionLifetime` — the closed interval: the code also
accepts the exact instant `T + sessionLifetime` — and is rejected as
expired (401) at every time `t > T + sessionLifetime`. -/
theorem token_validation_window (users : List User)
    (store : List TokenRecord) (u : User) (nm : String)
    (abilities : List String) (T t : Nat) (bytes : List Nat) (freshId : Nat)
    (hbytes : bytes.length = 32)
    (hfresh : ∀ r ∈ store, r.token ≠ hexEncode bytes)
    (huser : User.findByPk users u.id = some u)
    (hact : u.isActive = true) :
    (T ≤ t → t ≤ T + sessionLifetime →
      authenticate noJwt users (createToken store u nm abilities T bytes freshId).2
          t (some ("Bearer " ++ hexEncode bytes)) =
        .next u (hexEncode bytes)
          { (createToken store u nm abilities T bytes freshId).1 with
              last_used_at := some t }
          (updateLastUsed
            (updateLastUsed (createToken store u nm abilities T bytes freshId).2
              freshId t) freshId t)) ∧
    (t > T + sessionLifetime →
      authenticate noJwt users (createToken store u nm abilities T bytes freshId).2
          t (some ("Bearer " ++ hexEncode bytes)) =
        .reject 401 "Token sudah expired. Akses ditolak."
          (createToken store u nm abilities T bytes freshId).2) := by
  have hbw := jsStartsWith_append "Bearer " (hexEncode bytes)
  have hsub := jsSubstring_bearer (hexEncode bytes)
  have htokne : hexEncode bytes ≠ "" := by
    intro hemp
    have hl := hexEncode_length bytes
    rw [hemp, hbytes] at hl
    simp [String.length] at hl
  have hfind : findTokenRecord (createToken store u nm abilities T bytes freshId).2
      (hexEncode bytes) = some (createToken store u nm abilities T bytes freshId).1 :=
    findTokenRecord_append_fresh store _ _ hfresh rfl rfl
  have huser' : User.findByPk users
      (createToken store u nm abilities T bytes freshId).1.tokenable_id = some u := huser
  constructor
  · intro _ hle
    have hexp : (match (createToken store u nm abilities T bytes freshId).1.expires_at with
        | some e => decide (t > e)
        | none => false) = false := by
      show decide (t > T + sessionLifetime) = false
      simp
      omega
    simp [authenticate, authFinish, hbw, hsub, htokne, hfind, huser', hexp,
      noJwt, hact]
    rfl
  · intro hgt
    have hexp : (match (createToken store u nm abilities T bytes freshId).1.expires_at with
        | some e => decide (t > e)
        | none => false) = true := by
      show decide (t > T + sessionLifetime) = true
      simp
      omega
    simp [authenticate, hbw, hsub, htokne, hfind, huser', hexp]

/-- **C3** counterexample to the claim as stated: a token issued at `T = 0`
still validates successfully at the exact time `T + sessionLifetime`,
though the claim demands failure at every time `≥ T + L`. -/
theorem token_validation_at_lifetime_cex :
    authenticate noJwt [aliceActive]
        (createToken [] aliceActive "API Login" ["*"] 0 bytes0 7).2
        sessionLifetime (some ("Bearer " ++ hexEncode bytes0)) =
      .next aliceActive (hexEncode bytes0)
        { (createToken [] aliceActive "API Login" ["*"] 0 bytes0 7).1 with
            last_used_at := some sessionLifetime }
        (updateLastUsed
          (updateLastUsed (createToken [] aliceActive "API Login" ["*"] 0 bytes0 7).2
            7 sessionLifetime) 7 sessionLifetime) ∧
    sessionLifetime ≥ 0 + sessionLifetime := by
  refine ⟨by decide, by decide⟩

/-- **C3** witness: the round-trip window theorem applied at a concrete
issuance (`T = 0`) and validation time (`t = 100`). -/
theorem token_validation_window_witness :
    authenticate noJwt [aliceActive]
        (createToken [] aliceActive "API Login" ["*"] 0 bytes0 7).2
        100 (some ("Bearer " ++ hexEncode bytes0)) =
      .next aliceActive (hexEncode bytes0)
        { (createToken [] aliceActive "API Login" ["*"] 0 bytes0 7).1 with
            last_used_at := some 100 }
        (updateLastUsed
          (updateLastUsed (createToken [] aliceActive "API Login" ["*"] 0 bytes0 7).2
            7 100) 7 100) :=
  (token_validation_window [aliceActive] [] aliceActive "API Login" ["*"] 0 100
    bytes0 7 (by decide) (by simp) (by decide) (by decide)).1 (by decide) (by decide)

/-- **C2** (confirmed).  A login by an existing active user who already
holds a live (expiry set and still in the future) session token is
answered with the Conflict response carrying `hasActiveSession: true` and
the creation timestamp of a live session row found in the store, and the
token table is returned unchanged: zero token rows are created. -/
theorem login_second_login_conflict (users : List User)
    (tokens : List TokenRecord) (now : Nat) (email : String)
    (n i : Option String) (bytes : List Nat) (fid : Nat) (u : User)
    (r : TokenRecord)
    (hu : findUserByEmail users (jsToLower email) = some u)
    (hact : u.isActive = true)
    (hr : r ∈ tokens) (hty : r.tokenable_type = userType)
    (hid : r.tokenable_id = u.id)
    (hlive : ∃ e, r.expires_at = some e ∧ now < e) :
    ∃ ex, ex ∈ tokens ∧ ex.tokenable_id = u.id ∧
      ex.tokenable_type = userType ∧ (∃ e, ex.expires_at = some e ∧ now < e) ∧
      (login users tokens now false email n i bytes fid).1 =
        .conflict true ex.created_at ∧
      (login users tokens now false email n i bytes fid).2.2 = tokens := by
  have hred := login_reaches_session_check users tokens now email n i bytes fid u hu hact
  have hp : (fun rr : TokenRecord => rr.tokenable_id == u.id &&
      rr.tokenable_type == userType &&
      (match rr.expires_at with
       | some e => decide (e > now)
       | none => false)) r = true := by
    obtain ⟨e, he, hlt⟩ := hlive
    simp [hid, hty, he, hlt]
  have hsome : (hasActiveSession tokens u.id now).isSome := by
    unfold hasActiveSession
    exact List.find?_isSome.mpr ⟨r, hr, hp⟩
  obtain ⟨ex, hex⟩ := Option.isSome_iff_exists.mp hsome
  have hmem : ex ∈ tokens := List.mem_of_find?_eq_some hex
  have hpred := List.find?_some hex
  simp only [Bool.and_eq_true, beq_iff_eq] at hpred
  obtain ⟨⟨h1, h2⟩, h3⟩ := hpred
  refine ⟨ex, hmem, h1, h2, (liveGuard_eq_true_iff _ _).mp h3, ?_, ?_⟩
  · rw [hred, hex]
  · rw [hred, hex]

/-- **C2** witness: a second login for user 1 at time 50, with the live
session row `tok100` in the store. -/
theorem login_second_login_conflict_witness :
    (login [aliceActive] [tok100] 50 false "alice@example.com" none none
      bytes0 9).1 = .conflict true tok100.created_at ∧
    (login [aliceActive] [tok100] 50 false "alice@example.com" none none
      bytes0 9).2.2 = [tok100] := by
  obtain ⟨ex, hmem, _, _, _, h1, h2⟩ :=
    login_second_login_conflict [aliceActive] [tok100] 50 "alice@example.com"
      none none bytes0 9 aliceActive tok100 (by decide) (by decide)
      (by decide) (by decide) (by decide) ⟨100, rfl, by decide⟩
  rw [List.mem_singleton] at hmem
  subst hmem
  exact ⟨h1, h2⟩

/-- **C9** (amended).  For an existing active user, login is rejected with
the "already has active session" Conflict iff the store holds a token of
that user whose expiry is set and strictly in the future; rows with no
expiry set are not counted by the login check (`expires_at > now` is never
satisfied by a SQL NULL), and when no such row exists the login issues a
new token (appending exactly one row). -/
theorem login_conflict_iff_unexpired_token (users : List User)
    (tokens : List TokenRecord) (now : Nat) (email : String)
    (n i : Option String) (bytes : List Nat) (fid : Nat) (u : User)
    (hu : findUserByEmail users (jsToLower email) = some u)
    (hact : u.isActive = true) :
    ((∃ c, (login users tokens now false email n i bytes fid).1 =
        .conflict true c) ↔
      ∃ r, r ∈ tokens ∧ r.tokenable_type = userType ∧ r.tokenable_id = u.id ∧
        ∃ e, r.expires_at = some e ∧ now < e) ∧
    ((¬ ∃ r, r ∈ tokens ∧ r.tokenable_type = userType ∧
        r.tokenable_id = u.id ∧ ∃ e, r.expires_at = some e ∧ now < e) →
      ∃ tr, (login users tokens now false email n i bytes fid).1 =
          .success tr.token ∧
        (login users tokens now false email n i bytes fid).2.2 = tokens ++ [tr]) := by
  have hred := login_reaches_session_check users tokens now email n i bytes fid u hu hact
  constructor
  · constructor
    · rintro ⟨c, hc⟩
      cases hse : hasActiveSession tokens u.id now with
      | none =>
        rw [hred, hse] at hc
        simp at hc
      | some ex =>
        have hmem : ex ∈ tokens := List.mem_of_find?_eq_some hse
        have hpred := List.find?_some hse
        simp only [Bool.and_eq_true, beq_iff_eq] at hpred
        obtain ⟨⟨h1, h2⟩, h3⟩ := hpred
        exact ⟨ex, hmem, h2, h1, (liveGuard_eq_true_iff _ _).mp h3⟩
    · rintro ⟨r, hr, hty, hid, hliveE⟩
      have hp : (fun rr : TokenRecord => rr.tokenable_id == u.id &&
          rr.tokenable_type == userType &&
          (match rr.expires_at with
           | some e => decide (e > now)
           | none => false)) r = true := by
        obtain ⟨e, he, hlt⟩ := hliveE
        simp [hid, hty, he, hlt]
      have hsome : (hasActiveSession tokens u.id now).isSome := by
        unfold hasActiveSession
        exact List.find?_isSome.mpr ⟨r, hr, hp⟩
      obtain ⟨ex, hex⟩ := Option.isSome_iff_exists.mp hsome
      refine ⟨ex.created_at, ?_⟩
      rw [hred, hex]
  · intro hnone
    have hfn : hasActiveSession tokens u.id now = none := by
      unfold hasActiveSession
      apply List.find?_eq_none.mpr
      intro rr hrr hp
      simp only [Bool.and_eq_true, beq_iff_eq] at hp
      obtain ⟨⟨h1, h2⟩, h3⟩ := hp
      exact hnone ⟨rr, hrr, h2, h1, (liveGuard_eq_true_iff _ _).mp h3⟩
    refine ⟨(createToken tokens ((applyProfileSync u n i).updateLastLogin now)
      "API Login" ["*"] now bytes fid).1, ?_, ?_⟩
    · rw [hred, hfn]
    · rw [hred, hfn]
      rfl

/-- **C9** counterexample to the claim as stated: a stored token of the
user with *no expiry set* is live by the claim's (and `isValid`'s)
definition, yet `hasActiveSession` ignores it and the login proceeds to
issue a fresh token instead of rejecting with Conflict. -/
theorem login_no_expiry_token_cex :
    isValid 50 tokNoExpiry = true ∧
    tokNoExpiry.tokenable_type = userType ∧
    tokNoExpiry.tokenable_id = aliceActive.id ∧
    findUserByEmail [aliceActive] (jsToLower "alice@example.com") =
      some aliceActive ∧
    aliceActive.isActive = true ∧
    (login [aliceActive] [tokNoExpiry] 50 false "alice@example.com" none none
      bytes0 9).1 = .success (hexEncode bytes0) := by
  refine ⟨by decide, by decide, by decide, by decide, by decide, by decide⟩

/-- **C9** witness: the iff applied at a concrete conflicted login. -/
theorem login_conflict_iff_unexpired_token_witness :
    ∃ c, (login [aliceActive] [tok100] 50 false "alice@example.com" none none
      bytes0 9).1 = .conflict true c :=
  (login_conflict_iff_unexpired_token [aliceActive] [tok100] 50
      "alice@example.com" none none bytes0 9 aliceActive (by decide)
      (by decide)).1.mpr
    ⟨tok100, by decide, by decide, by decide, 100, rfl, by decide⟩

/-- **C10** (confirmed).  A login rejected with the "already has active
session" Conflict has already mutated the user row: the provided name and
avatar refresh are persisted and the last-login timestamp is stamped
before the session check runs, so the Conflict rejection is not free of
side effects on the user table (the token table, by contrast, is
untouched). -/
theorem login_conflict_still_mutates_user (users : List User)
    (tokens : List TokenRecord) (now : Nat) (email : String) (n i : String)
    (bytes : List Nat) (fid : Nat) (u : User) (r : TokenRecord)
    (hu : findUserByEmail users (jsToLower email) = some u)
    (hact : u.isActive = true)
    (hr : r ∈ tokens) (hty : r.tokenable_type = userType)
    (hid : r.tokenable_id = u.id)
    (hlive : ∃ e, r.expires_at = some e ∧ now < e)
    (hn : n ≠ "") (hi : i ≠ "") :
    ∃ c users',
      login users tokens now false email (some n) (some i) bytes fid =
        (.conflict true c, users', tokens) ∧
      ∃ u', u' ∈ users' ∧ u'.id = u.id ∧ u'.name = n ∧ u'.imageUrl = i ∧
        u'.lastLoginAt = some now := by
  have hred := login_reaches_session_check users tokens now email (some n)
    (some i) bytes fid u hu hact
  have hp : (fun rr : TokenRecord => rr.tokenable_id == u.id &&
      rr.tokenable_type == userType &&
      (match rr.expires_at with
       | some e => decide (e > now)
       | none => false)) r = true := by
    obtain ⟨e, he, hlt⟩ := hlive
    simp [hid, hty, he, hlt]
  have hsome : (hasActiveSession tokens u.id now).isSome := by
    unfold hasActiveSession
    exact List.find?_isSome.mpr ⟨r, hr, hp⟩
  obtain ⟨ex, hex⟩ := Option.isSome_iff_exists.mp hsome
  refine ⟨ex.created_at,
    saveUser (saveUser users (applyProfileSync u (some n) (some i)))
      ((applyProfileSync u (some n) (some i)).updateLastLogin now), ?_,
    (applyProfileSync u (some n) (some i)).updateLastLogin now, ?_, ?_, ?_, ?_, rfl⟩
  · rw [hred, hex]
  · have humem : u ∈ users := List.mem_of_find?_eq_some hu
    have h1 : applyProfileSync u (some n) (some i) ∈
        saveUser users (applyProfileSync u (some n) (some i)) :=
      mem_saveUser users u _ humem (applyProfileSync_id u (some n) (some i)).symm
    exact mem_saveUser _ _ _ h1 rfl
  · exact applyProfileSync_id u (some n) (some i)
  · exact applyProfileSync_name u n (some i) hn
  · exact applyProfileSync_imageUrl u (some n) i hi

/-- **C10** witness: a conflicted login at time 50 that still persisted
the provided name and avatar and stamped last-login. -/
theorem login_conflict_still_mutates_user_witness :
    ∃ c users',
      login [aliceActive] [tok100] 50 false "alice@example.com"
          (some "Alicia") (some "https://i.example/b.png") bytes0 9 =
        (.conflict true c, users', [tok100]) ∧
      ∃ u', u' ∈ users' ∧ u'.id = aliceActive.id ∧ u'.name = "Alicia" ∧
        u'.imageUrl = "https://i.example/b.png" ∧ u'.lastLoginAt = some 50 :=
  login_conflict_still_mutates_user [aliceActive] [tok100] 50
    "alice@example.com" "Alicia" "https://i.example/b.png" bytes0 9
    aliceActive tok100 (by decide) (by decide) (by decide) (by decide)
    (by decide) ⟨100, rfl, by decide⟩ (by decide) (by decide)

/-- **C4** (confirmed).  A registration whose email (compared
case-insensitively; stored emails are lower-cased, which the invariant
hypothesis `hlc` records) and username are not already taken creates
exactly one user row (the table becomes `users ++ [newUser]`), responds
with the created profile, and creates no token row (the token table is
returned unchanged). -/
theorem register_unique_creates_one_user (users : List User)
    (tokens : List TokenRecord) (name username email : String)
    (imageUrl : Option String) (freshId : Nat)
    (hlc : ∀ v ∈ users, jsToLower v.email = v.email)
    (hemail : ∀ v ∈ users, jsToLower v.email ≠ jsToLower email)
    (husername : ∀ v ∈ users, v.username ≠ username) :
    ∃ newUser : User,
      register users tokens false name username email imageUrl freshId =
        (.created newUser.getProfile, users ++ [newUser], tokens) ∧
      newUser.email = jsToLower email ∧ newUser.username = username ∧
      newUser.name = name := by
  have hfind : users.find?
      (fun v => v.email == jsToLower email || v.username == username) = none := by
    apply List.find?_eq_none.mpr
    intro v hv hp
    simp only [Bool.or_eq_true, beq_iff_eq] at hp
    cases hp with
    | inl hveq => exact hemail v hv ((hlc v hv).trans hveq)
    | inr hun => exact husername v hv hun
  refine
    ⟨{ id := freshId, name := name, username := username,
       email := jsToLower email,
       imageUrl := jsOr imageUrl "https://via.placeholder.com/150",
       activeFlag := true, lastLoginAt := none }, ?_, rfl, rfl, rfl⟩
  simp [register, hfind]

/-- **C4** witness: registering a fresh email/username over a one-user
table. -/
theorem register_unique_creates_one_user_witness :
    ∃ newUser : User,
      register [aliceActive] [tok100] false "Bob" "bob" "Bob@Example.com"
          none 2 =
        (.created newUser.getProfile, [aliceActive] ++ [newUser], [tok100]) ∧
      newUser.email = jsToLower "Bob@Example.com" ∧
      newUser.username = "bob" ∧ newUser.name = "Bob" :=
  register_unique_creates_one_user [aliceActive] [tok100] "Bob" "bob"
    "Bob@Example.com" none 2 (by decide) (by decide) (by decide)

/-- **C5** (confirmed).  The registration gate: missing credential or a
non-`Bearer` transport format or an empty key → 401 (unauthenticated);
well-formed credential but unconfigured (absent or empty) server secret →
500, failing closed; configured secret whose UTF-8 bytes differ from the
credential's (in length or content — the code pre-checks the length and
then runs `crypto.timingSafeEqual`, whose constant-time execution is a
property of the crypto primitive outside this embedding) → 403
(forbidden); and the request proceeds exactly when the credential matches
the configured non-empty secret byte for byte. -/
theorem registration_gate_spec (cfg h : Option String) :
    (h = none → verifyRegistrationToken cfg h =
      .reject 401 "API key registrasi tidak ditemukan. Akses ditolak.") ∧
    (∀ s, h = some s → jsStartsWith s "Bearer " = false →
      verifyRegistrationToken cfg h =
        .reject 401 "Format API key tidak valid. Gunakan Bearer token.") ∧
    (∀ s, h = some s → jsStartsWith s "Bearer " = true →
      jsSubstring s 7 = "" →
      verifyRegistrationToken cfg h =
        .reject 401 "API key registrasi tidak ditemukan. Akses ditolak.") ∧
    (∀ s, h = some s → jsStartsWith s "Bearer " = true →
      jsSubstring s 7 ≠ "" → (cfg = none ∨ cfg = some "") →
      verifyRegistrationToken cfg h =
        .reject 500 "Konfigurasi registrasi tidak valid. Hubungi administrator.") ∧
    (∀ s secret, h = some s → jsStartsWith s "Bearer " = true →
      jsSubstring s 7 ≠ "" → cfg = some secret → secret ≠ "" →
      utf8Bytes secret ≠ utf8Bytes (jsSubstring s 7) →
      verifyRegistrationToken cfg h =
        .reject 403 "API key registrasi tidak valid. Akses ditolak.") ∧
    (verifyRegistrationToken cfg h = .proceed ↔
      ∃ s secret, h = some s ∧ jsStartsWith s "Bearer " = true ∧
        jsSubstring s 7 ≠ "" ∧ cfg = some secret ∧ secret ≠ "" ∧
        utf8Bytes (jsSubstring s 7) = utf8Bytes secret) := by
  refine ⟨?_, ?_, ?_, ?_, ?_, ?_⟩
  · rintro rfl
    rfl
  · rintro s rfl hbw
    simp [verifyRegistrationToken, hbw]
  · rintro s rfl hbw hempty
    simp [verifyRegistrationToken, hbw, hempty]
  · rintro s rfl hbw hne hcfg
    cases hcfg with
    | inl hnone => subst hnone; simp [verifyRegistrationToken, hbw, hne]
    | inr hempty => subst hempty; simp [verifyRegistrationToken, hbw, hne]
  · rintro s secret rfl hbw hne rfl hsne hbytesne
    by_cases hlen : (utf8Bytes secret).length = (utf8Bytes (jsSubstring s 7)).length
    · simp [verifyRegistrationToken, hbw, hne, hsne, hlen, hbytesne]
    · simp [verifyRegistrationToken, hbw, hne, hsne, hlen]
  · constructor
    · intro hp
      cases h with
      | none => simp [verifyRegistrationToken] at hp
      | some s =>
        by_cases hbw : jsStartsWith s "Bearer "
        · by_cases hne : jsSubstring s 7 = ""
          · simp [verifyRegistrationToken, hbw, hne] at hp
          · cases hcfg : cfg with
            | none => simp [verifyRegistrationToken, hbw, hne, hcfg] at hp
            | some secret =>
              by_cases hsne : secret = ""
              · subst hsne
                simp [verifyRegistrationToken, hbw, hne, hcfg] at hp
              · by_cases hlen : (utf8Bytes secret).length =
                    (utf8Bytes (jsSubstring s 7)).length
                · by_cases heq : utf8Bytes secret = utf8Bytes (jsSubstring s 7)
                  · exact ⟨s, secret, rfl, hbw, hne, rfl, hsne, heq.symm⟩
                  · simp [verifyRegistrationToken, hbw, hne, hcfg, hsne, hlen,
                      heq] at hp
                · simp [verifyRegistrationToken, hbw, hne, hcfg, hsne, hlen] at hp
        · simp [verifyRegistrationToken, hbw] at hp
    · rintro ⟨s, secret, rfl, hbw, hne, rfl, hsne, heq⟩
      simp [verifyRegistrationToken, hbw, hne, hsne, heq]

/-- **C5** witness: the gate characterization applied to a concrete
matching credential. -/
theorem registration_gate_spec_witness :
    verifyRegistrationToken (some "sekrit-42") (some "Bearer sekrit-42") =
      .proceed :=
  (registration_gate_spec (some "sekrit-42") (some "Bearer sekrit-42")
    ).2.2.2.2.2.mpr
    ⟨"Bearer sekrit-42", "sekrit-42", rfl, by decide, by decide, rfl,
      by decide, by decide⟩

/-- **C7** (confirmed).  Logout deletes exactly the rows carrying the
token string that authenticated the call: a row survives iff it was
present and carries a different token string (so no other user's rows and
no other rows of the same user are touched), and the response is success
unconditionally — also when zero rows matched. -/
theorem logout_deletes_exactly_current_token (token : String)
    (tokens : List TokenRecord) (ht : token ≠ "") :
    (logout token tokens).1 = true ∧
    (∀ r, r ∈ (logout token tokens).2 ↔ r ∈ tokens ∧ r.token ≠ token) := by
  constructor
  · simp [logout, ht]
  · intro r
    simp [logout, ht, List.mem_filter]

/-- **C7** witness: logging out with `tok100`'s token string over a
two-row store keeps exactly the other row, and a repeat logout (zero rows
matched) still succeeds. -/
theorem logout_deletes_exactly_current_token_witness :
    (logout "deadbeef" [tok100, tokNoExpiry]).1 = true ∧
    (tokNoExpiry ∈ (logout "deadbeef" [tok100, tokNoExpiry]).2 ↔
      tokNoExpiry ∈ [tok100, tokNoExpiry] ∧ tokNoExpiry.token ≠ "deadbeef") ∧
    (tok100 ∈ (logout "deadbeef" [tok100, tokNoExpiry]).2 ↔
      tok100 ∈ [tok100, tokNoExpiry] ∧ tok100.token ≠ "deadbeef") ∧
    (logout "deadbeef" []).1 = true := by
  refine ⟨(logout_deletes_exactly_current_token "deadbeef" [tok100, tokNoExpiry]
      (by decide)).1,
    (logout_deletes_exactly_current_token "deadbeef" [tok100, tokNoExpiry]
      (by decide)).2 tokNoExpiry,
    (logout_deletes_exactly_current_token "deadbeef" [tok100, tokNoExpiry]
      (by decide)).2 tok100,
    (logout_deletes_exactly_current_token "deadbeef" [] (by decide)).1⟩

/-- **C8** (confirmed).  `createToken` appends exactly one row to the
table; the row's token string is the hex image of the 32 supplied random
bytes (`crypto.randomBytes(32)` — the entropy quality is the crypto
library's contract) and has the fixed length 64, its expiry is the
issuance time plus the fixed 24-hour lifetime, and its last-used and
creation stamps equal the issuance time. -/
theorem createToken_creates_one_row (store : List TokenRecord) (u : User)
    (nm : String) (abilities : List String) (now : Nat) (bytes : List Nat)
    (freshId : Nat) (hbytes : bytes.length = 32) :
    (createToken store u nm abilities now bytes freshId).2 =
      store ++ [(createToken store u nm abilities now bytes freshId).1] ∧
    (createToken store u nm abilities now bytes freshId).1.token =
      hexEncode bytes ∧
    (createToken store u nm abilities now bytes freshId).1.token.length = 64 ∧
    (createToken store u nm abilities now bytes freshId).1.expires_at =
      some (now + sessionLifetime) ∧
    (createToken store u nm abilities now bytes freshId).1.last_used_at =
      some now ∧
    (createToken store u nm abilities now bytes freshId).1.tokenable_id = u.id ∧
    (createToken store u nm abilities now bytes freshId).1.created_at = now := by
  refine ⟨rfl, rfl, ?_, rfl, rfl, rfl, rfl⟩
  show (hexEncode bytes).length = 64
  rw [hexEncode_length, hbytes]

/-- **C8** witness: issuing a token at time 5 from 32 concrete bytes. -/
theorem createToken_creates_one_row_witness :
    (createToken [] aliceActive "API Login" ["*"] 5 bytes0 3).2 =
      [] ++ [(createToken [] aliceActive "API Login" ["*"] 5 bytes0 3).1] ∧
    (createToken [] aliceActive "API Login" ["*"] 5 bytes0 3).1.token =
      hexEncode bytes0 ∧
    (createToken [] aliceActive "API Login" ["*"] 5 bytes0 3).1.token.length = 64 ∧
    (createToken [] aliceActive "API Login" ["*"] 5 bytes0 3).1.expires_at =
      some (5 + sessionLifetime) ∧
    (createToken [] aliceActive "API Login" ["*"] 5 bytes0 3).1.last_used_at =
      some 5 ∧
    (createToken [] aliceActive "API Login" ["*"] 5 bytes0 3).1.tokenable_id =
      aliceActive.id ∧
    (createToken [] aliceActive "API Login" ["*"] 5 bytes0 3).1.created_at = 5 :=
  createToken_creates_one_row [] aliceActive "API Login" ["*"] 5 bytes0 3
    (by decide)

end Snappie
